import Mathlib

/-!
Verification of the response-normalization, retry and polling core of the
guardrail-selector sample (lambda handlers `InvokeAgent.py`,
`QueryKnowledgeBase.py`, `SyncKnowledgeBase.py`).

The Python code is shallowly embedded: dictionaries with a known key set
become structures whose `Option` fields record key presence (`none` = key
absent), byte strings become `List Nat`, Python exceptions become
`Except`/explicit outcome types, and the in-place dict mutation of the
retry path becomes explicit state passing (the function returns the final,
caller-visible parameter bag).
-/

namespace GuardrailSelector

/-! ## UTF-8 decoding

Models Python `bytes.decode('utf-8')`: a byte list (values 0–255) is decoded
to a string or the call raises (`Except.error`).  The decoder is fuel-based
so that it is structurally recursive; the fuel is the length of the input,
which is enough because every step consumes at least one byte, so the
fuel-exhausted branch is unreachable. -/

/-- Is `b` a UTF-8 continuation byte (`10xxxxxx`)? -/
def contByte (b : Nat) : Bool := 0x80 ≤ b && b < 0xC0

def utf8DecodeFuel : Nat → List Nat → Except String (List Char)
  | _, [] => Except.ok []
  | 0, _ :: _ => Except.error "fuel exhausted"
  | fuel + 1, b0 :: rest =>
    if b0 < 0x80 then
      (utf8DecodeFuel fuel rest).map fun cs => Char.ofNat b0 :: cs
    else if b0 < 0xC2 then Except.error "invalid start byte"
    else if b0 < 0xE0 then
      match rest with
      | b1 :: rest2 =>
        if contByte b1 then
          (utf8DecodeFuel fuel rest2).map fun cs =>
            Char.ofNat ((b0 - 0xC0) * 0x40 + (b1 - 0x80)) :: cs
        else Except.error "invalid continuation byte"
      | [] => Except.error "unexpected end of data"
    else if b0 < 0xF0 then
      match rest with
      | b1 :: b2 :: rest3 =>
        if contByte b1 && contByte b2 then
          let cp := (b0 - 0xE0) * 0x1000 + (b1 - 0x80) * 0x40 + (b2 - 0x80)
          if cp < 0x800 then Except.error "overlong encoding"
          else if 0xD800 ≤ cp && cp < 0xE000 then Except.error "surrogate code point"
          else (utf8DecodeFuel fuel rest3).map fun cs => Char.ofNat cp :: cs
        else Except.error "invalid continuation byte"
      | _ => Except.error "unexpected end of data"
    else if b0 < 0xF5 then
      match rest with
      | b1 :: b2 :: b3 :: rest4 =>
        if contByte b1 && contByte b2 && contByte b3 then
          let cp := (b0 - 0xF0) * 0x40000 + (b1 - 0x80) * 0x1000 +
                    (b2 - 0x80) * 0x40 + (b3 - 0x80)
          if cp < 0x10000 then Except.error "overlong encoding"
          else if 0x10FFFF < cp then Except.error "code point out of range"
          else (utf8DecodeFuel fuel rest4).map fun cs => Char.ofNat cp :: cs
        else Except.error "invalid continuation byte"
      | _ => Except.error "unexpected end of data"
    else Except.error "invalid start byte"

/-- Python `bs.decode('utf-8')`. -/
def utf8Decode (l : List Nat) : Except String String :=
  (utf8DecodeFuel l.length l).map fun cs => String.mk cs

/-! ## Data model for `InvokeAgent.process_agent_response`

Input side: the raw response dict and the events of its `completion`
event stream.  `Option` fields record dict-key / attribute presence. -/

/-- Output record for one retrieved reference (`ref_data` in the source). -/
structure RefData where
  content : Option String
  location : Option String
  metadata : Option String
deriving DecidableEq, Repr

/-- Output record for one citation (`citation_data` in the source).
`references` is `some` exactly when the input citation carried a
`retrievedReferences` key. -/
structure CitationData where
  text : Option String
  span : Option String
  references : Option (List RefData)
deriving DecidableEq, Repr

/-- The `content` value of a retrieved reference: either a mapping with an
optional `text` key, or a value that is not a mapping (payload irrelevant,
the source only logs its type). -/
inductive ContentField where
  | cdict (text : Option String)
  | nondict
deriving DecidableEq, Repr

/-- An entry of a citation's `retrievedReferences` list.  `location` and
`metadata` are copied verbatim by the source, so they are modelled as opaque
strings. -/
structure RetrievedRef where
  content : Option ContentField
  location : Option String
  metadata : Option String
deriving DecidableEq, Repr

/-- `generatedResponsePart.textResponsePart` of a citation.  The `span`
value is copied verbatim, hence opaque. -/
structure TextResponsePart where
  text : Option String
  span : Option String
deriving DecidableEq, Repr

structure GeneratedResponsePart where
  textResponsePart : Option TextResponsePart
deriving DecidableEq, Repr

/-- One citation of a mapping-style attribution block. -/
structure Citation where
  generatedResponsePart : Option GeneratedResponsePart
  retrievedReferences : Option (List RetrievedRef)
deriving DecidableEq, Repr

/-- A mapping-style attribution block (`chunk['attribution']`). -/
structure Attribution where
  citations : Option (List Citation)
deriving DecidableEq, Repr

/-- An attribute-style attribution object (`chunk.attribution`); the source
only counts its citations, emitting a fixed record per entry, so entries are
modelled as `Unit`. -/
structure AttrAttribution where
  citations : Option (List Unit)
deriving DecidableEq, Repr

/-- The value of a mapping chunk's `bytes` key: either an actual byte string
or a value of some other runtime type (dropped with a warning). -/
inductive BytesField where
  | pybytes (b : List Nat)
  | nonbytes (v : String)
deriving DecidableEq, Repr

/-- A mapping-style chunk (`isinstance(chunk, dict)`). -/
structure ChunkDict where
  bytes : Option BytesField
  text : Option String
  attribution : Option Attribution
deriving DecidableEq, Repr

/-- The value of an event's `chunk` key: an attribute-style object (with an
optional non-`None` `bytes` buffer and an optional `attribution` attribute)
or a mapping. -/
inductive ChunkVal where
  | attrObj (bytes : Option (List Nat)) (attribution : Option AttrAttribution)
  | dictObj (d : ChunkDict)
deriving DecidableEq, Repr

/-- `event['trace']['trace']['guardrailTrace']`. -/
structure GuardrailTrace where
  action : Option String
  traceId : Option String
  inputAssessments : Option String
  outputAssessments : Option String
deriving DecidableEq, Repr

/-- `event['trace']['trace']['orchestrationTrace']`; the two payloads are
copied verbatim via `.get`, hence opaque optional strings. -/
structure OrchestrationTrace where
  modelInvocationInput : Option String
  modelInvocationOutput : Option String
deriving DecidableEq, Repr

/-- `event['trace']['trace']`. -/
structure InnerTrace where
  guardrailTrace : Option GuardrailTrace
  orchestrationTrace : Option OrchestrationTrace
deriving DecidableEq, Repr

/-- The value of an event's `trace` key. -/
structure TraceVal where
  agentId : Option String
  agentAliasId : Option String
  agentVersion : Option String
  sessionId : Option String
  trace : Option InnerTrace
deriving DecidableEq, Repr

/-- The value of an error-variant key: a dict with an optional `message`. -/
structure ExcVal where
  message : Option String
deriving DecidableEq, Repr

/-- One event of the `completion` event stream; every field models the
presence of the corresponding dict key. -/
structure AgentEvent where
  chunk : Option ChunkVal
  trace : Option TraceVal
  accessDeniedException : Option ExcVal
  badGatewayException : Option ExcVal
  conflictException : Option ExcVal
  dependencyFailedException : Option ExcVal
  internalServerException : Option ExcVal
  modelNotReadyException : Option ExcVal
  resourceNotFoundException : Option ExcVal
  serviceQuotaExceededException : Option ExcVal
  throttlingException : Option ExcVal
  validationException : Option ExcVal
deriving DecidableEq, Repr

/-- The raw `invoke_agent` response handed to `process_agent_response`. -/
structure AgentResponse where
  completion : Option (List AgentEvent)
  contentType : Option String
  memoryId : Option String
deriving DecidableEq, Repr

/-- Output `guardrail` sub-record of a trace entry: `action` and `traceId`
keys are always written (possibly with a `None` value, via `.get`), the two
assessment keys only when present in the input. -/
structure GuardrailOut where
  action : Option String
  traceId : Option String
  inputAssessments : Option String
  outputAssessments : Option String
deriving DecidableEq, Repr

/-- Output `orchestration` sub-record of a trace entry. -/
structure OrchestrationOut where
  modelInvocationInput : Option String
  modelInvocationOutput : Option String
deriving DecidableEq, Repr

/-- One output entry of the result's `traces` list (`trace_data`). -/
structure TraceData where
  agentId : Option String
  agentAliasId : Option String
  agentVersion : Option String
  sessionId : Option String
  guardrail : Option GuardrailOut
  orchestration : Option OrchestrationOut
deriving DecidableEq, Repr

/-- The `error` sub-record of the normalized result. -/
structure ErrInfo where
  type : String
  message : String
deriving DecidableEq, Repr

/-- The normalized result dict built by `process_agent_response` on its
normal path.  `error`, `contentType` and `memoryId` are `some` exactly when
the corresponding key was added to the dict. -/
structure NormalizedResult where
  text : String
  citations : List CitationData
  traces : List TraceData
  error : Option ErrInfo
  contentType : Option String
  memoryId : Option String
deriving DecidableEq, Repr

/-! ## The normalizer (`process_agent_response`)

The per-event loop body becomes `processEvent`, the `for` loop becomes
`processEvents`, and the surrounding `try/except` becomes the `Except`
wrapper `process_agent_response`. -/

/-- The fixed record appended for each attribute-style citation. -/
def attrCitationData : CitationData :=
  { text := some "Citation from attribute access", span := none, references := none }

/-- Builds `ref_data` from one `retrievedReferences` entry. -/
def mkRefData (ref : RetrievedRef) : RefData :=
  { content :=
      match ref.content with
      | some (.cdict t) => t
      | some .nondict => none
      | none => none
    location := ref.location
    metadata := ref.metadata }

/-- Builds `citation_data` from one citation of a mapping attribution. -/
def mkCitationData (citation : Citation) : CitationData :=
  let tp := citation.generatedResponsePart.bind fun g => g.textResponsePart
  { text := tp.bind fun t => t.text
    span := tp.bind fun t => t.span
    references := citation.retrievedReferences.map fun refs => refs.map mkRefData }

/-- Builds `trace_data` from the value of an event's `trace` key. -/
def processTrace (t : TraceVal) : TraceData :=
  { agentId := t.agentId
    agentAliasId := t.agentAliasId
    agentVersion := t.agentVersion
    sessionId := t.sessionId
    guardrail := t.trace.bind fun it =>
      it.guardrailTrace.map fun g =>
        { action := g.action
          traceId := g.traceId
          inputAssessments := g.inputAssessments
          outputAssessments := g.outputAssessments }
    orchestration := t.trace.bind fun it =>
      it.orchestrationTrace.map fun o =>
        { modelInvocationInput := o.modelInvocationInput
          modelInvocationOutput := o.modelInvocationOutput } }

/-- The chunk-handling block of the loop body: text extraction (attribute
bytes / mapping `bytes` / mapping `text`), then the mapping-attribution
citations, then the attribute-attribution citations. -/
def processChunk (acc : NormalizedResult) (chunk : ChunkVal) :
    Except String NormalizedResult :=
  let step1 : Except String NormalizedResult :=
    match chunk with
    | .attrObj (some bs) _ =>
      if bs.isEmpty then Except.ok acc
      else (utf8Decode bs).map fun t => { acc with text := acc.text ++ t }
    | .attrObj none _ => Except.ok acc
    | .dictObj d =>
      match d.bytes with
      | some (.pybytes bs) =>
        (utf8Decode bs).map fun t => { acc with text := acc.text ++ t }
      | some (.nonbytes _) => Except.ok acc
      | none =>
        match d.text with
        | some t => Except.ok { acc with text := acc.text ++ t }
        | none => Except.ok acc
  step1.map fun acc1 =>
    let acc2 :=
      match chunk with
      | .dictObj d =>
        match d.attribution with
        | some attr =>
          match attr.citations with
          | some cs => { acc1 with citations := acc1.citations ++ cs.map mkCitationData }
          | none => acc1
        | none => acc1
      | .attrObj _ _ => acc1
    match chunk with
    | .attrObj _ (some a) =>
      match a.citations with
      | some cs =>
        { acc2 with citations := acc2.citations ++ cs.map fun _ => attrCitationData }
      | none => acc2
    | .attrObj _ none => acc2
    | .dictObj _ => acc2

/-- The list of recognized error-variant keys, in source order, paired with
their field accessors. -/
def errFields : List (String × (AgentEvent → Option ExcVal)) :=
  [("accessDeniedException", fun e => e.accessDeniedException),
   ("badGatewayException", fun e => e.badGatewayException),
   ("conflictException", fun e => e.conflictException),
   ("dependencyFailedException", fun e => e.dependencyFailedException),
   ("internalServerException", fun e => e.internalServerException),
   ("modelNotReadyException", fun e => e.modelNotReadyException),
   ("resourceNotFoundException", fun e => e.resourceNotFoundException),
   ("serviceQuotaExceededException", fun e => e.serviceQuotaExceededException),
   ("throttlingException", fun e => e.throttlingException),
   ("validationException", fun e => e.validationException)]

/-- The error-detection `for` loop of the loop body: each recognized
error-variant key present in the event overwrites the current `error`. -/
def applyErrors (event : AgentEvent) (cur : Option ErrInfo) : Option ErrInfo :=
  errFields.foldl
    (fun acc nf =>
      match nf.2 event with
      | some v => some { type := nf.1, message := v.message.getD "Unknown error" }
      | none => acc)
    cur

/-- One iteration of `for event in response['completion']`. -/
def processEvent (acc : NormalizedResult) (event : AgentEvent) :
    Except String NormalizedResult :=
  let step1 : Except String NormalizedResult :=
    match event.chunk with
    | some c => processChunk acc c
    | none => Except.ok acc
  step1.map fun acc1 =>
    let acc2 :=
      match event.trace with
      | some t => { acc1 with traces := acc1.traces ++ [processTrace t] }
      | none => acc1
    { acc2 with error := applyErrors event acc2.error }

/-- The whole event loop. -/
def processEvents : List AgentEvent → NormalizedResult → Except String NormalizedResult
  | [], acc => Except.ok acc
  | e :: es, acc => (processEvent acc e).bind fun acc1 => processEvents es acc1

/-- The initial result dict: note it has no `error` key. -/
def initResult : NormalizedResult :=
  { text := "", citations := [], traces := [], error := none
    contentType := none, memoryId := none }

/-- The body of `process_agent_response`'s `try` block. -/
def process_agent_response_inner (response : AgentResponse) :
    Except String NormalizedResult :=
  let body : Except String NormalizedResult :=
    match response.completion with
    | some events => processEvents events initResult
    | none => Except.ok initResult
  body.map fun r =>
    { r with contentType := response.contentType, memoryId := response.memoryId }

/-- A processed response: either the normalized result dict or the
two-field fallback dict built in the `except` clause. -/
inductive ProcessedResponse where
  | ok (r : NormalizedResult)
  | fallback (text : String) (errMsg : String)
deriving DecidableEq, Repr

/-- `process_agent_response`: the `try/except` wrapper. -/
def process_agent_response (response : AgentResponse) : ProcessedResponse :=
  match process_agent_response_inner response with
  | .ok r => .ok r
  | .error e => .fallback "Error processing agent response" e

/-! ## Observation functions

Total functions describing, per event, what the loop body contributes; the
characterization lemmas below prove that the loop is exactly the
accumulation of these contributions. -/

/-- The text payload one chunk contributes (`Except.error` when its UTF-8
decoding would raise). -/
def chunkPayload : ChunkVal → Except String String
  | .attrObj (some bs) _ => if bs.isEmpty then Except.ok "" else utf8Decode bs
  | .attrObj none _ => Except.ok ""
  | .dictObj d =>
    match d.bytes with
    | some (.pybytes bs) => utf8Decode bs
    | some (.nonbytes _) => Except.ok ""
    | none =>
      match d.text with
      | some t => Except.ok t
      | none => Except.ok ""

/-- The citation records one chunk contributes. -/
def chunkCitations : ChunkVal → List CitationData
  | .attrObj _ (some a) =>
    match a.citations with
    | some cs => cs.map fun _ => attrCitationData
    | none => []
  | .attrObj _ none => []
  | .dictObj d =>
    match d.attribution with
    | some attr =>
      match attr.citations with
      | some cs => cs.map mkCitationData
      | none => []
    | none => []

/-- The text payload one event contributes. -/
def eventPayload (event : AgentEvent) : Except String String :=
  match event.chunk with
  | some c => chunkPayload c
  | none => Except.ok ""

/-- The citation records one event contributes. -/
def eventCitations (event : AgentEvent) : List CitationData :=
  match event.chunk with
  | some c => chunkCitations c
  | none => []

/-- The trace records one event contributes. -/
def eventTraces (event : AgentEvent) : List TraceData :=
  match event.trace with
  | some t => [processTrace t]
  | none => []

/-- The error record one event sets, if any (the last matching variant key
of the fixed list wins within one event). -/
def eventError (event : AgentEvent) : Option ErrInfo :=
  applyErrors event none

/-- Left-biased choice on `Option` (new value wins over old). -/
def oOr {α : Type} : Option α → Option α → Option α
  | some x, _ => some x
  | none, b => b

/-- The final `error` value of a whole stream (later events win). -/
def streamError : List AgentEvent → Option ErrInfo
  | [] => none
  | e :: es => oOr (streamError es) (eventError e)

/-- The decoded text payloads of a whole stream, in order. -/
def decodePayloads : List AgentEvent → Except String (List String)
  | [] => Except.ok []
  | e :: es =>
    (eventPayload e).bind fun t => (decodePayloads es).map fun ts => t :: ts

/-- All citation records of a whole stream, in order. -/
def streamCitations : List AgentEvent → List CitationData
  | [] => []
  | e :: es => eventCitations e ++ streamCitations es

/-- All trace records of a whole stream, in order. -/
def streamTraces : List AgentEvent → List TraceData
  | [] => []
  | e :: es => eventTraces e ++ streamTraces es

/-- Concatenation of a list of strings, in order. -/
def concatAll : List String → String
  | [] => ""
  | t :: ts => t ++ concatAll ts

/-- The event list of a raw response (empty when the `completion` key is
absent). -/
def eventsOf (response : AgentResponse) : List AgentEvent :=
  response.completion.getD []

/-- Does a processed response carry an `error` key? (The fallback dict
always has one.) -/
def hasErrorKey : ProcessedResponse → Bool
  | .ok r => r.error.isSome
  | .fallback _ _ => true

/-- Is a processed response the normal (non-fallback) record? -/
def isNormalResult : ProcessedResponse → Bool
  | .ok _ => true
  | .fallback _ _ => false

/-- Is an `Except` value a success? -/
def excIsOk {ε α : Type} : Except ε α → Bool
  | .ok _ => true
  | .error _ => false

instance {ε α : Type} [DecidableEq ε] [DecidableEq α] : DecidableEq (Except ε α)
  | .ok a, .ok b =>
    if h : a = b then .isTrue (by rw [h]) else .isFalse (by intro hc; cases hc; exact h rfl)
  | .ok _, .error _ => .isFalse (by intro hc; cases hc)
  | .error _, .ok _ => .isFalse (by intro hc; cases hc)
  | .error a, .error b =>
    if h : a = b then .isTrue (by rw [h]) else .isFalse (by intro hc; cases hc; exact h rfl)

/-! ## Characterization lemmas

The event loop is exactly the accumulation of the per-event observation
functions: text is appended (never replaced), citations and traces are
appended in order, and the last error-variant event wins. -/

theorem oOr_none_right {α : Type} (x : Option α) : oOr x none = x := by
  cases x <;> rfl

theorem oOr_assoc {α : Type} (x y z : Option α) :
    oOr (oOr x y) z = oOr x (oOr y z) := by
  cases x <;> cases y <;> rfl

theorem oOr_some_absorb {α : Type} (x : Option α) (y : α) (z : Option α) :
    oOr (oOr x (some y)) z = oOr x (some y) := by
  cases x <;> rfl

/-- The error-override fold only depends on the starting value when no
field of the list is present. -/
theorem applyErrorsAux :
    ∀ (l : List (String × (AgentEvent → Option ExcVal))) (e : AgentEvent)
      (cur : Option ErrInfo),
      l.foldl
        (fun acc nf =>
          match nf.2 e with
          | some v => some { type := nf.1, message := v.message.getD "Unknown error" }
          | none => acc) cur
      = oOr
          (l.foldl
            (fun acc nf =>
              match nf.2 e with
              | some v => some { type := nf.1, message := v.message.getD "Unknown error" }
              | none => acc) none)
          cur := by
  intro l
  induction l with
  | nil => intro e cur; simp [List.foldl, oOr]
  | cons nf l ih =>
    intro e cur
    simp only [List.foldl]
    cases h : nf.2 e with
    | none =>
      simp only [h]
      exact ih e cur
    | some v =>
      simp only [h]
      rw [ih]
      rw [oOr_some_absorb]

theorem applyErrors_eq (e : AgentEvent) (cur : Option ErrInfo) :
    applyErrors e cur = oOr (eventError e) cur := by
  unfold eventError applyErrors
  exact applyErrorsAux errFields e cur

/-- One chunk contributes exactly its payload (appended to the running
text) and its citation records (appended to the running list). -/
theorem processChunk_char (acc : NormalizedResult) (c : ChunkVal) :
    processChunk acc c = (chunkPayload c).map fun t =>
      { acc with text := acc.text ++ t
                 citations := acc.citations ++ chunkCitations c } := by
  cases c with
  | attrObj b a =>
    cases b with
    | none =>
      cases a with
      | none =>
        simp [processChunk, chunkPayload, chunkCitations, Except.map,
          String.append_empty]
      | some a' =>
        cases h : a'.citations <;>
          simp [processChunk, chunkPayload, chunkCitations, h, Except.map,
            String.append_empty]
    | some bs =>
      by_cases hbs : bs.isEmpty
      · cases a with
        | none =>
          simp [processChunk, chunkPayload, chunkCitations, hbs, Except.map,
            String.append_empty]
        | some a' =>
          cases h : a'.citations <;>
            simp [processChunk, chunkPayload, chunkCitations, hbs, h, Except.map,
              String.append_empty]
      · cases hu : utf8Decode bs with
        | error m =>
          cases a with
          | none =>
            simp [processChunk, chunkPayload, chunkCitations, hbs, hu, Except.map]
          | some a' =>
            cases h : a'.citations <;>
              simp [processChunk, chunkPayload, chunkCitations, hbs, h, hu, Except.map]
        | ok t =>
          cases a with
          | none =>
            simp [processChunk, chunkPayload, chunkCitations, hbs, hu, Except.map]
          | some a' =>
            cases h : a'.citations <;>
              simp [processChunk, chunkPayload, chunkCitations, hbs, h, hu, Except.map]
  | dictObj d =>
    rcases d with ⟨db, dt, da⟩
    cases db with
    | none =>
      cases dt with
      | none =>
        cases da with
        | none =>
          simp [processChunk, chunkPayload, chunkCitations, Except.map,
            String.append_empty]
        | some attr =>
          cases h : attr.citations <;>
            simp [processChunk, chunkPayload, chunkCitations, h, Except.map,
              String.append_empty]
      | some t =>
        cases da with
        | none =>
          simp [processChunk, chunkPayload, chunkCitations, Except.map]
        | some attr =>
          cases h : attr.citations <;>
            simp [processChunk, chunkPayload, chunkCitations, h, Except.map]
    | some bf =>
      cases bf with
      | nonbytes v =>
        cases da with
        | none =>
          simp [processChunk, chunkPayload, chunkCitations, Except.map,
            String.append_empty]
        | some attr =>
          cases h : attr.citations <;>
            simp [processChunk, chunkPayload, chunkCitations, h, Except.map,
              String.append_empty]
      | pybytes bs =>
        cases hu : utf8Decode bs with
        | error m =>
          simp [processChunk, chunkPayload, hu, Except.map]
        | ok t =>
          cases da with
          | none =>
            simp [processChunk, chunkPayload, chunkCitations, hu, Except.map]
          | some attr =>
            cases h : attr.citations <;>
              simp [processChunk, chunkPayload, chunkCitations, h, hu, Except.map]

/-- One loop iteration contributes exactly the event's payload, citations,
traces and error override. -/
theorem processEvent_char (acc : NormalizedResult) (e : AgentEvent) :
    processEvent acc e = (eventPayload e).map fun t =>
      { text := acc.text ++ t
        citations := acc.citations ++ eventCitations e
        traces := acc.traces ++ eventTraces e
        error := oOr (eventError e) acc.error
        contentType := acc.contentType
        memoryId := acc.memoryId } := by
  unfold processEvent eventPayload eventCitations eventTraces
  cases hc : e.chunk with
  | none =>
    cases ht : e.trace <;>
      simp [applyErrors_eq, Except.map, String.append_empty, List.append_nil]
  | some c =>
    dsimp only
    rw [processChunk_char]
    cases hp : chunkPayload c with
    | error m => cases ht : e.trace <;> simp [Except.map]
    | ok t =>
      cases ht : e.trace <;>
        simp [Except.map, applyErrors_eq, List.append_nil]

/-- The whole loop is the accumulation of the per-event contributions:
decoded payloads are concatenated onto the initial text, citations and
traces are appended in stream order, the last error-variant event wins, and
the first decoding failure aborts with that failure. -/
theorem processEvents_char :
    ∀ (events : List AgentEvent) (acc : NormalizedResult),
      processEvents events acc = (decodePayloads events).map fun ts =>
        { text := acc.text ++ concatAll ts
          citations := acc.citations ++ streamCitations events
          traces := acc.traces ++ streamTraces events
          error := oOr (streamError events) acc.error
          contentType := acc.contentType
          memoryId := acc.memoryId } := by
  intro events
  induction events with
  | nil =>
    intro acc
    simp [processEvents, decodePayloads, concatAll, streamCitations,
      streamTraces, streamError, oOr, Except.map, String.append_empty,
      List.append_nil]
  | cons e es ih =>
    intro acc
    simp only [processEvents]
    rw [processEvent_char]
    cases hp : eventPayload e with
    | error m =>
      simp [decodePayloads, hp, Except.map, Except.bind]
    | ok t =>
      simp only [Except.map, Except.bind]
      rw [ih]
      cases hd : decodePayloads es with
      | error m =>
        simp [decodePayloads, hp, hd, Except.map, Except.bind]
      | ok ts =>
        simp [decodePayloads, hp, hd, Except.map, Except.bind, concatAll,
          streamCitations, streamTraces, streamError, String.append_assoc,
          List.append_assoc, oOr_assoc]

/-- `process_agent_response_inner` in terms of the observation functions. -/
theorem process_inner_char (response : AgentResponse) :
    process_agent_response_inner response
      = (decodePayloads (eventsOf response)).map fun ts =>
        { text := concatAll ts
          citations := streamCitations (eventsOf response)
          traces := streamTraces (eventsOf response)
          error := streamError (eventsOf response)
          contentType := response.contentType
          memoryId := response.memoryId } := by
  unfold process_agent_response_inner eventsOf
  cases hc : response.completion with
  | none =>
    simp [processEvents, decodePayloads, concatAll, streamCitations,
      streamTraces, streamError, Except.map, initResult]
  | some events =>
    simp only [Option.getD]
    rw [processEvents_char]
    cases hd : decodePayloads events with
    | error m => simp [Except.map]
    | ok ts =>
      simp [Except.map, initResult, String.empty_append, oOr_none_right]

theorem oOr_isSome {α : Type} (x y : Option α) :
    (oOr x y).isSome = (x.isSome || y.isSome) := by
  cases x <;> cases y <;> rfl

/-- The stream's final error is the one of the last event that carries any
recognized error variant. -/
theorem streamError_getLast :
    ∀ events : List AgentEvent,
      streamError events = (events.filterMap eventError).getLast? := by
  intro events
  induction events with
  | nil => rfl
  | cons e es ih =>
    simp only [streamError, List.filterMap]
    cases h : eventError e with
    | none => simp [h, ih, oOr_none_right]
    | some x =>
      simp only [h]
      rw [ih]
      cases hl : es.filterMap eventError with
      | nil => simp [oOr]
      | cons y ys =>
        rw [List.getLast?_cons_cons]
        cases hz : (y :: ys).getLast? with
        | none => simp at hz
        | some z => simp [oOr, hz]

/-- The stream has a final error exactly when some event carries a
recognized error variant. -/
theorem streamError_isSome :
    ∀ events : List AgentEvent,
      (streamError events).isSome
        = events.any fun e => (eventError e).isSome := by
  intro events
  induction events with
  | nil => rfl
  | cons e es ih =>
    simp only [streamError, List.any_cons, oOr_isSome, ih]
    exact Bool.or_comm _ _

/-- A stream with no chunk events decodes to empty payloads and contributes
no citations. -/
theorem no_chunk_payloads :
    ∀ events : List AgentEvent, (∀ e ∈ events, e.chunk = none) →
      decodePayloads events = Except.ok (events.map fun _ => "")
        ∧ streamCitations events = [] := by
  intro events
  induction events with
  | nil => intro _; exact ⟨rfl, rfl⟩
  | cons e es ih =>
    intro h
    have he : e.chunk = none := h e (List.mem_cons_self e es)
    have hes := ih fun x hx => h x (List.mem_cons_of_mem e hx)
    constructor
    · simp [decodePayloads, eventPayload, he, hes.1, Except.map, Except.bind]
    · simp [streamCitations, eventCitations, he, hes.2]

theorem concatAll_blanks {α : Type} :
    ∀ l : List α, concatAll (l.map fun _ => "") = "" := by
  intro l
  induction l with
  | nil => rfl
  | cons x l ih => simp only [List.map_cons, concatAll, ih, String.empty_append]

/-! ## `QueryKnowledgeBase.perform_retrieve_and_generate`

The remote `retrieve_and_generate` call is a black-box collaborator: it is
passed in as a function `svc` from the parameter bag to an outcome (success,
`ClientError`, or any other exception).  Python's in-place
`retrieve_params.pop('sessionId')` becomes explicit state passing: the
embedding returns, along with the outcome, the final state of the
caller-visible parameter bag and the list of parameter bags the service was
actually called with (in order). -/

/-- A `botocore` `ClientError`, reduced to the two fields the handler reads:
`e.response['Error']['Code']` and `e.response['Error']['Message']` (with
their `.get` defaults already applied). -/
structure ClientErr where
  code : String
  message : String
deriving DecidableEq, Repr

/-- Outcome of one remote call. -/
inductive CallOutcome (α : Type) where
  | ok (response : α)
  | clientError (e : ClientErr)
  | otherError (msg : String)
deriving DecidableEq, Repr

/-- `pat.data` starts the list? (helper for substring containment). -/
def startsWithL : List Char → List Char → Bool
  | [], _ => true
  | _ :: _, [] => false
  | p :: ps, h :: hs => p == h && startsWithL ps hs

def hasSubL (pat : List Char) : List Char → Bool
  | [] => startsWithL pat []
  | h :: t => startsWithL pat (h :: t) || hasSubL pat t

/-- Python's `pat in hay` on strings. -/
def strContains (hay pat : String) : Bool := hasSubL pat.data hay.data

/-- The fixed stale-session check of the handler: a `ValidationException`
whose message contains both "is not valid" and "Session with Id". -/
def is_invalid_session_error (e : ClientErr) : Bool :=
  e.code == "ValidationException"
    && strContains e.message "is not valid"
    && strContains e.message "Session with Id"

/-- The `retrieve_and_generate` parameter bag: the optional `sessionId` key
and, opaquely, everything else (`input`, `retrieveAndGenerateConfiguration`),
which the handler never modifies. -/
structure RetrieveParams where
  sessionId : Option String
  rest : String
deriving DecidableEq, Repr

/-- `perform_retrieve_and_generate`.  Returns
`(outcome, final parameter bag, parameter bags of the issued calls)`;
`CallOutcome.ok (response, flag)` carries the "session ID was changed"
flag of the source's `return response, bool`. -/
def perform_retrieve_and_generate {α : Type}
    (svc : RetrieveParams → CallOutcome α) (retrieve_params : RetrieveParams) :
    CallOutcome (α × Bool) × RetrieveParams × List RetrieveParams :=
  match svc retrieve_params with
  | .ok response => (.ok (response, false), retrieve_params, [retrieve_params])
  | .otherError m => (.otherError m, retrieve_params, [retrieve_params])
  | .clientError e =>
    if is_invalid_session_error e then
      match retrieve_params.sessionId with
      | some _ =>
        let newParams : RetrieveParams := { retrieve_params with sessionId := none }
        match svc newParams with
        | .ok response => (.ok (response, true), newParams, [retrieve_params, newParams])
        | .clientError e2 => (.clientError e2, newParams, [retrieve_params, newParams])
        | .otherError m => (.otherError m, newParams, [retrieve_params, newParams])
      | none => (.clientError e, retrieve_params, [retrieve_params])
    else (.clientError e, retrieve_params, [retrieve_params])

/-! ## `SyncKnowledgeBase` ingestion poller

The `while time.time() - start_time < max_wait_time` loop, with time
advancing only through the fixed `time.sleep(10)`: `elapsed` is the model
wall clock, `status i` the status reported by the `i`-th
`get_ingestion_job` call.  The returned number counts the polls issued. -/

inductive PollOutcome where
  | completed
  | failed (status : String)
  | timedOut
deriving DecidableEq, Repr

/-- `max_wait_time = 300  # 5 minutes`. -/
def max_wait_time : Nat := 300

def pollLoop (status : Nat → String) (maxWait : Nat) (i elapsed : Nat) :
    PollOutcome × Nat :=
  if h : elapsed < maxWait then
    let s := status i
    if s = "COMPLETE" then (.completed, i + 1)
    else if s = "FAILED" ∨ s = "STOPPED" then (.failed s, i + 1)
    else pollLoop status maxWait (i + 1) (elapsed + 10)
  else (.timedOut, i)
termination_by maxWait - elapsed
decreasing_by omega

/-- The poll loop of `SyncKnowledgeBase.handler`, with its fixed timeout. -/
def awaitCompletion (status : Nat → String) : PollOutcome × Nat :=
  pollLoop status max_wait_time 0 0

/-- The HTTP status code the handler attaches to each loop outcome
(`COMPLETE` → 200, `FAILED`/`STOPPED` → 500, timeout → 200). -/
def outcomeStatusCode : PollOutcome → Nat
  | .completed => 200
  | .failed _ => 500
  | .timedOut => 200

/-! ## Concrete fixtures for witnesses and counterexamples -/

def emptyEvent : AgentEvent :=
  ⟨none, none, none, none, none, none, none, none, none, none, none, none⟩

def chunkEvent (c : ChunkVal) : AgentEvent := { emptyEvent with chunk := some c }

def throttlingEvent (m : Option String) : AgentEvent :=
  { emptyEvent with throttlingException := some ⟨m⟩ }

def accessDeniedEvent (m : Option String) : AgentEvent :=
  { emptyEvent with accessDeniedException := some ⟨m⟩ }

def mkResp (events : List AgentEvent) : AgentResponse := ⟨some events, none, none⟩

/-- A mapping-style chunk carrying a byte payload. -/
def bytesChunk (bs : List Nat) : ChunkVal := .dictObj ⟨some (.pybytes bs), none, none⟩

/-- Two chunk events carrying "Hel" and "lo" as UTF-8 bytes. -/
def respHello : AgentResponse :=
  mkResp [chunkEvent (bytesChunk [72, 101, 108]), chunkEvent (bytesChunk [108, 111])]

def resHello : NormalizedResult := ⟨"Hello", [], [], none, none, none⟩

/-- A chunk whose byte payload `0xFF` is not valid UTF-8. -/
def badResp : AgentResponse := mkResp [chunkEvent (bytesChunk [255])]

/-- A throttling error, then a chunk ("ok"), then an access-denied error
without a message. -/
def respErr : AgentResponse :=
  mkResp [throttlingEvent (some "rate exceeded"), chunkEvent (bytesChunk [111, 107]),
    accessDeniedEvent none]

def resErr : NormalizedResult :=
  ⟨"ok", [], [], some ⟨"accessDeniedException", "Unknown error"⟩, none, none⟩

/-- A retrieved reference with no `content` key. -/
def refNoContent : RetrievedRef := ⟨none, some "s3-location-A", none⟩

/-- A retrieved reference whose `content` mapping has a `text` key. -/
def refWithText : RetrievedRef := ⟨some (.cdict (some "bar")), none, some "meta-B"⟩

def refsEx : List RetrievedRef := [refNoContent, refWithText]

def citEx : Citation := ⟨none, some refsEx⟩

def errStale : ClientErr := ⟨"ValidationException", "Session with Id abc123 is not valid"⟩

/-- A service double: fails with the stale-session validation error while a
session reference is supplied, succeeds without one. -/
def svc0 : RetrieveParams → CallOutcome String := fun p =>
  match p.sessionId with
  | some _ => .clientError errStale
  | none => .ok "answer"

def params0 : RetrieveParams := ⟨some "abc123", "cfg"⟩

/-- The STARTING, STARTING, COMPLETE status sequence. -/
def seq3 : Nat → String := fun i => ["STARTING", "STARTING", "COMPLETE"].getD i "STARTING"

/-! ## Shared helper lemmas for the claim theorems -/

theorem ok_of_process (response : AgentResponse) (r : NormalizedResult)
    (hr : process_agent_response response = .ok r) :
    process_agent_response_inner response = .ok r := by
  cases h : process_agent_response_inner response with
  | ok r' =>
    simp only [process_agent_response, h] at hr
    cases hr
    rfl
  | error m => simp [process_agent_response, h] at hr

/-- On the non-fallback path the result is exactly the accumulation of the
observation functions. -/
theorem process_ok_fields (response : AgentResponse) (r : NormalizedResult)
    (hr : process_agent_response response = .ok r) :
    ∃ ts, decodePayloads (eventsOf response) = .ok ts
      ∧ r = { text := concatAll ts
              citations := streamCitations (eventsOf response)
              traces := streamTraces (eventsOf response)
              error := streamError (eventsOf response)
              contentType := response.contentType
              memoryId := response.memoryId } := by
  have h := ok_of_process response r hr
  rw [process_inner_char] at h
  cases hd : decodePayloads (eventsOf response) with
  | error m => rw [hd] at h; simp [Except.map] at h
  | ok ts =>
    rw [hd] at h
    simp only [Except.map, Except.ok.injEq] at h
    exact ⟨ts, rfl, h.symm⟩

/-! ## Claim theorems -/

/-- C1, counterexample: on the empty event stream the normalizer takes its
normal (non-fallback) path, yet the returned record has NO `error` key —
the claim that all four top-level keys (including `error`) are present by
default is false. -/
theorem C1_counterexample :
    isNormalResult (process_agent_response (mkResp [])) = true
      ∧ hasErrorKey (process_agent_response (mkResp [])) = false := by
  decide

/-- C1 (amended): for every input that does not trigger the catastrophic
fallback, the record always provides the `text`, `citations` and `traces`
fields (present-but-empty for the empty stream), but the `error` key is
present exactly when some event of the stream carries a recognized
error-variant key. -/
theorem C1_result_shape (response : AgentResponse) (r : NormalizedResult)
    (hr : process_agent_response response = .ok r) :
    (r.error.isSome = (eventsOf response).any fun e => (eventError e).isSome)
      ∧ (eventsOf response = [] →
          r = { text := "", citations := [], traces := [], error := none
                contentType := response.contentType
                memoryId := response.memoryId }) := by
  obtain ⟨ts, hd, hfields⟩ := process_ok_fields response r hr
  subst hfields
  constructor
  · exact streamError_isSome (eventsOf response)
  · intro hev
    rw [hev] at hd
    have hts : ts = [] := by
      simp only [decodePayloads, Except.ok.injEq] at hd
      exact hd.symm
    subst hts
    rw [hev]
    rfl

/-- C1 witness: on the empty-stream input the amended claim's conclusions
hold concretely. -/
theorem C1_witness :
    ((⟨"", [], [], none, none, none⟩ : NormalizedResult).error.isSome
        = (eventsOf (mkResp [])).any fun e => (eventError e).isSome)
      ∧ (eventsOf (mkResp []) = [] →
          (⟨"", [], [], none, none, none⟩ : NormalizedResult)
            = { text := "", citations := [], traces := [], error := none
                contentType := (mkResp []).contentType
                memoryId := (mkResp []).memoryId }) :=
  C1_result_shape (mkResp []) ⟨"", [], [], none, none, none⟩ (by decide)

/-- C2: the normalizer never propagates an exception: every input yields
either the normal record or the two-field fallback whose `text` is the
fixed message, and whenever processing the stream fails with message `m`
the result is exactly that fallback carrying `m`. -/
theorem C2_never_raises (response : AgentResponse) :
    ((∃ r, process_agent_response response = .ok r)
        ∨ (∃ m, process_agent_response response
            = .fallback "Error processing agent response" m))
      ∧ (∀ m, process_agent_response_inner response = .error m →
          process_agent_response response
            = .fallback "Error processing agent response" m) := by
  constructor
  · cases h : process_agent_response_inner response with
    | ok r => exact Or.inl ⟨r, by simp [process_agent_response, h]⟩
    | error m => exact Or.inr ⟨m, by simp [process_agent_response, h]⟩
  · intro m hm
    simp [process_agent_response, hm]

/-- C2 witness: a chunk whose byte payload is invalid UTF-8 makes the
decoding raise, and the result is the two-field fallback. -/
theorem C2_witness :
    process_agent_response badResp
      = .fallback "Error processing agent response" "invalid start byte" :=
  (C2_never_raises badResp).2 "invalid start byte" (by decide)

/-- C6: on the non-fallback path, `text` is the concatenation, in stream
order, of the decoded payloads of all chunk events; a stream with zero
chunk events yields `text = ""` and `citations = []`; and each event's
payload is appended to the accumulator, never replacing it. -/
theorem C6_text_concatenation (response : AgentResponse) (r : NormalizedResult)
    (hr : process_agent_response response = .ok r) :
    (∃ ts, decodePayloads (eventsOf response) = .ok ts ∧ r.text = concatAll ts)
      ∧ ((∀ e ∈ eventsOf response, e.chunk = none) →
          r.text = "" ∧ r.citations = [])
      ∧ (∀ (acc : NormalizedResult) (e : AgentEvent) (r' : NormalizedResult),
          processEvent acc e = .ok r' → ∃ t, r'.text = acc.text ++ t) := by
  obtain ⟨ts, hd, hfields⟩ := process_ok_fields response r hr
  refine ⟨⟨ts, hd, by rw [hfields]⟩, ?_, ?_⟩
  · intro hnc
    obtain ⟨hdec, hcit⟩ := no_chunk_payloads (eventsOf response) hnc
    rw [hd] at hdec
    have hts : ts = (eventsOf response).map fun _ => "" := by
      simp only [Except.ok.injEq] at hdec
      exact hdec
    subst hfields
    subst hts
    exact ⟨concatAll_blanks (eventsOf response), hcit⟩
  · intro acc e r' hstep
    rw [processEvent_char] at hstep
    cases hp : eventPayload e with
    | error m => rw [hp] at hstep; simp [Except.map] at hstep
    | ok t =>
      rw [hp] at hstep
      simp only [Except.map, Except.ok.injEq] at hstep
      exact ⟨t, by rw [← hstep]⟩

/-- C6 witness: streaming the byte chunks "Hel" and "lo" yields
`text = "Hello"`, the concatenation of the decoded payloads. -/
theorem C6_witness :
    ∃ ts, decodePayloads (eventsOf respHello) = .ok ts
      ∧ resHello.text = concatAll ts :=
  (C6_text_concatenation respHello resHello (by decide)).1

/-- C7: a chunk delivered as a bytes-bearing mapping normalizes exactly as
one delivered as an attribute-style byte buffer with the same bytes — both
at the level of one loop iteration (for every accumulator) and of the whole
normalizer. -/
theorem C7_representation_transparency (acc : NormalizedResult) (bs : List Nat) :
    processChunk acc (.attrObj (some bs) none)
        = processChunk acc (.dictObj ⟨some (.pybytes bs), none, none⟩)
      ∧ ∀ ct mi : Option String,
          process_agent_response
              ⟨some [chunkEvent (.attrObj (some bs) none)], ct, mi⟩
            = process_agent_response
              ⟨some [chunkEvent (.dictObj ⟨some (.pybytes bs), none, none⟩)], ct, mi⟩ := by
  have hpay : chunkPayload (.attrObj (some bs) none)
      = chunkPayload (.dictObj ⟨some (.pybytes bs), none, none⟩) := by
    simp only [chunkPayload]
    by_cases hbs : bs.isEmpty
    · have : bs = [] := List.isEmpty_iff.mp hbs
      subst this
      simp [utf8Decode, utf8DecodeFuel, Except.map]
    · simp [hbs]
  have hch : ∀ a : NormalizedResult,
      processChunk a (.attrObj (some bs) none)
        = processChunk a (.dictObj ⟨some (.pybytes bs), none, none⟩) := by
    intro a
    rw [processChunk_char, processChunk_char, hpay]
    have hcit : chunkCitations (.attrObj (some bs) none)
        = chunkCitations (.dictObj ⟨some (.pybytes bs), none, none⟩) := rfl
    rw [hcit]
  refine ⟨hch acc, ?_⟩
  intro ct mi
  have hchk : ∀ c : ChunkVal, (chunkEvent c).chunk = some c := fun _ => rfl
  have htr : ∀ c : ChunkVal, (chunkEvent c).trace = none := fun _ => rfl
  have herr : ∀ (c : ChunkVal) (cur : Option ErrInfo),
      applyErrors (chunkEvent c) cur = cur := fun _ _ => rfl
  simp only [process_agent_response, process_agent_response_inner, processEvents,
    processEvent, hchk, htr, herr]
  rw [hch initResult]

/-- C7 witness: the concrete byte payload "abc" (97, 98, 99) delivered in
either representation produces the same iteration result. -/
theorem C7_witness :
    processChunk initResult (.attrObj (some [97, 98, 99]) none)
      = processChunk initResult
          (.dictObj ⟨some (.pybytes [97, 98, 99]), none, none⟩) :=
  (C7_representation_transparency initResult [97, 98, 99]).1

/-- C8: on the non-fallback path the `error` field is exactly the record of
the last error-variant event of the stream (later events overwrite earlier
ones, nothing accumulates); the message defaults to "Unknown error" when
absent; and an error event does not abort normalization — the full text is
still accumulated. -/
theorem C8_last_error_wins (response : AgentResponse) (r : NormalizedResult)
    (hr : process_agent_response response = .ok r) :
    (r.error = ((eventsOf response).filterMap eventError).getLast?)
      ∧ (∀ m : Option String,
          eventError (throttlingEvent m)
            = some { type := "throttlingException"
                     message := m.getD "Unknown error" })
      ∧ (∃ ts, decodePayloads (eventsOf response) = .ok ts ∧ r.text = concatAll ts) := by
  obtain ⟨ts, hd, hfields⟩ := process_ok_fields response r hr
  refine ⟨?_, ?_, ⟨ts, hd, by rw [hfields]⟩⟩
  · rw [hfields]
    exact streamError_getLast (eventsOf response)
  · intro m
    cases m <;> rfl

/-- C8 witness: a throttling error with message "rate exceeded", then a
chunk, then a message-less access-denied error: the last error-variant
event wins and the chunk text is still extracted. -/
theorem C8_witness :
    resErr.error = ((eventsOf respErr).filterMap eventError).getLast?
      ∧ ∃ ts, decodePayloads (eventsOf respErr) = .ok ts
          ∧ resErr.text = concatAll ts :=
  ⟨(C8_last_error_wins respErr resErr (by decide)).1,
   (C8_last_error_wins respErr resErr (by decide)).2.2⟩

/-- C9: when a citation has a `retrievedReferences` list, the output
`references` list has the same length in the same order; an entry lacking a
`content` mapping (absent or not a mapping) still contributes an output
entry whose `content` is simply absent; and the citation-processing part of
a mapping chunk can never make the loop iteration fail — failure is
determined solely by the text payload. -/
theorem C9_references_preserved (c : Citation) (refs : List RetrievedRef)
    (h : c.retrievedReferences = some refs) :
    ((mkCitationData c).references = some (refs.map mkRefData))
      ∧ ((refs.map mkRefData).length = refs.length)
      ∧ (∀ r : RetrievedRef, r.content = none → (mkRefData r).content = none
          ∧ (mkRefData r).location = r.location ∧ (mkRefData r).metadata = r.metadata)
      ∧ (∀ r : RetrievedRef, r.content = some .nondict → (mkRefData r).content = none)
      ∧ (∀ (acc : NormalizedResult) (d : ChunkDict),
          excIsOk (processChunk acc (.dictObj d))
            = excIsOk (chunkPayload (.dictObj d))) := by
  refine ⟨?_, List.length_map refs mkRefData, ?_, ?_, ?_⟩
  · simp [mkCitationData, h]
  · intro r hc
    exact ⟨by simp [mkRefData, hc], rfl, rfl⟩
  · intro r hc
    simp [mkRefData, hc]
  · intro acc d
    rw [processChunk_char]
    cases hp : chunkPayload (.dictObj d) <;> simp [Except.map, excIsOk]

/-- C9 witness: a citation with two retrieved references, the first lacking
`content`, yields a references list of length 2 whose first entry has no
`content` field. -/
theorem C9_witness :
    ((mkCitationData citEx).references = some (refsEx.map mkRefData))
      ∧ ((refsEx.map mkRefData).length = refsEx.length)
      ∧ ((mkRefData refNoContent).content = none) :=
  ⟨(C9_references_preserved citEx refsEx rfl).1,
   (C9_references_preserved citEx refsEx rfl).2.1,
   ((C9_references_preserved citEx refsEx rfl).2.2.1 refNoContent rfl).1⟩

/-- C10: a mapping chunk whose `bytes` key holds a non-bytes value appends
nothing to `text` and does not raise, even when the same mapping also
carries a `text` key — the non-bytes `bytes` key shadows the `text`
fallback. -/
theorem C10_nonbytes_shadowing (acc : NormalizedResult) (d : ChunkDict)
    (v : String) (h : d.bytes = some (.nonbytes v)) :
    ∃ acc', processChunk acc (.dictObj d) = .ok acc' ∧ acc'.text = acc.text := by
  rw [processChunk_char]
  have hp : chunkPayload (.dictObj d) = .ok "" := by
    simp [chunkPayload, h]
  rw [hp]
  exact ⟨_, rfl, by simp [String.append_empty]⟩

/-- C10 witness: a mapping with a non-bytes `bytes` value and a `text` key
"shadowed" contributes no text and succeeds. -/
theorem C10_witness :
    ∃ acc', processChunk initResult
        (.dictObj ⟨some (.nonbytes "int 42"), some "shadowed", none⟩) = .ok acc'
      ∧ acc'.text = initResult.text :=
  C10_nonbytes_shadowing initResult
    ⟨some (.nonbytes "int 42"), some "shadowed", none⟩ "int 42" rfl

/-- C3: the executor retries exactly once, dropping the session reference,
when the first call fails with the stale-session validation error and a
session reference was supplied (returning the second call's result with
the changed flag set); it propagates the error unchanged without retrying
when the error does not match or no session reference was present; and a
successful first call returns the unchanged flag. -/
theorem C3_retry_policy (α : Type) (svc : RetrieveParams → CallOutcome α)
    (params : RetrieveParams) (e : ClientErr) :
    (∀ resp, svc params = .ok resp →
        perform_retrieve_and_generate svc params
          = (.ok (resp, false), params, [params]))
      ∧ (svc params = .clientError e → is_invalid_session_error e = true →
          ∀ sid, params.sessionId = some sid →
            (perform_retrieve_and_generate svc params).2.2
                = [params, { params with sessionId := none }]
              ∧ ∀ resp2, svc { params with sessionId := none } = .ok resp2 →
                  perform_retrieve_and_generate svc params
                    = (.ok (resp2, true), { params with sessionId := none },
                       [params, { params with sessionId := none }]))
      ∧ (svc params = .clientError e → is_invalid_session_error e = true →
          params.sessionId = none →
          perform_retrieve_and_generate svc params
            = (.clientError e, params, [params]))
      ∧ (svc params = .clientError e → is_invalid_session_error e = false →
          perform_retrieve_and_generate svc params
            = (.clientError e, params, [params])) := by
  refine ⟨?_, ?_, ?_, ?_⟩
  · intro resp h
    simp [perform_retrieve_and_generate, h]
  · intro h hmatch sid hsid
    constructor
    · simp only [perform_retrieve_and_generate, h, hmatch, if_true, hsid]
      cases h2 : svc { params with sessionId := none } <;> simp [h2]
    · intro resp2 h2
      simp [perform_retrieve_and_generate, h, hmatch, hsid, h2]
  · intro h hmatch hsid
    simp [perform_retrieve_and_generate, h, hmatch, hsid]
  · intro h hmatch
    simp [perform_retrieve_and_generate, h, hmatch]

/-- C3 witness: with the stale-session validation error and
`sessionId = "abc123"` supplied, the executor reissues the call once
without the session reference and returns the second result with the
changed flag. -/
theorem C3_witness :
    perform_retrieve_and_generate svc0 params0
      = (.ok ("answer", true), { params0 with sessionId := none },
         [params0, { params0 with sessionId := none }]) :=
  ((C3_retry_policy String svc0 params0 errStale).2.1 (by decide) (by decide)
      "abc123" (by decide)).2 "answer" (by decide)

/-- C4, counterexample: after a stale-session retry the caller-visible
parameter bag has LOST its session reference — the bag is mutated in
place, not left unchanged as the claim states. -/
theorem C4_counterexample :
    (perform_retrieve_and_generate svc0 params0).2.1.sessionId = none
      ∧ params0.sessionId = some "abc123" := by
  decide

/-- C4 (amended): the parameter bag is shared, not immutable: the retry
path removes the session reference from the caller's bag in place (the
caller-visible bag after the call is the derived bag), while every
non-retry path leaves the bag unchanged. -/
theorem C4_bag_mutation (α : Type) (svc : RetrieveParams → CallOutcome α)
    (params : RetrieveParams) (e : ClientErr) :
    (∀ resp, svc params = .ok resp →
        (perform_retrieve_and_generate svc params).2.1 = params)
      ∧ (∀ m, svc params = .otherError m →
          (perform_retrieve_and_generate svc params).2.1 = params)
      ∧ (svc params = .clientError e → is_invalid_session_error e = false →
          (perform_retrieve_and_generate svc params).2.1 = params)
      ∧ (svc params = .clientError e → is_invalid_session_error e = true →
          params.sessionId = none →
          (perform_retrieve_and_generate svc params).2.1 = params)
      ∧ (svc params = .clientError e → is_invalid_session_error e = true →
          ∀ sid, params.sessionId = some sid →
            (perform_retrieve_and_generate svc params).2.1
              = { params with sessionId := none }) := by
  refine ⟨?_, ?_, ?_, ?_, ?_⟩
  · intro resp h
    simp [perform_retrieve_and_generate, h]
  · intro m h
    simp [perform_retrieve_and_generate, h]
  · intro h hmatch
    simp [perform_retrieve_and_generate, h, hmatch]
  · intro h hmatch hsid
    simp [perform_retrieve_and_generate, h, hmatch, hsid]
  · intro h hmatch sid hsid
    simp only [perform_retrieve_and_generate, h, hmatch, if_true, hsid]
    cases h2 : svc { params with sessionId := none } <;> simp [h2]

/-- C4 witness: in the concrete retry scenario the caller's bag comes back
with the session reference removed. -/
theorem C4_witness :
    (perform_retrieve_and_generate svc0 params0).2.1
      = { params0 with sessionId := none } :=
  (C4_bag_mutation String svc0 params0 errStale).2.2.2.2 (by decide) (by decide)
    "abc123" (by decide)

/-- C5: the poll loop returns the success outcome on a poll showing
COMPLETE, the failure outcome carrying the status on a poll showing FAILED
or STOPPED, otherwise sleeps 10 time units and re-polls while the elapsed
time is under the limit (300 by default); once it is not, it returns the
distinguished timed-out outcome, which maps to HTTP 200 like success (not
500 like failure); the sequence [STARTING, STARTING, COMPLETE] completes
after exactly 3 polls, and a stream stuck at STARTING times out after the
30 polls that fit in 300 time units. -/
theorem C5_poller (status : Nat → String) (maxWait i elapsed : Nat) :
    (elapsed < maxWait → status i = "COMPLETE" →
        pollLoop status maxWait i elapsed = (.completed, i + 1))
      ∧ (elapsed < maxWait → (status i = "FAILED" ∨ status i = "STOPPED") →
          pollLoop status maxWait i elapsed = (.failed (status i), i + 1))
      ∧ (elapsed < maxWait → ¬ status i = "COMPLETE" → ¬ status i = "FAILED" →
          ¬ status i = "STOPPED" →
          pollLoop status maxWait i elapsed
            = pollLoop status maxWait (i + 1) (elapsed + 10))
      ∧ (maxWait ≤ elapsed → pollLoop status maxWait i elapsed = (.timedOut, i))
      ∧ (outcomeStatusCode .timedOut = 200 ∧ outcomeStatusCode .completed = 200
          ∧ ∀ st, outcomeStatusCode (.failed st) = 500)
      ∧ max_wait_time = 300
      ∧ awaitCompletion seq3 = (.completed, 3)
      ∧ awaitCompletion (fun _ => "STARTING") = (.timedOut, 30) := by
  refine ⟨?_, ?_, ?_, ?_, ⟨rfl, rfl, fun _ => rfl⟩, rfl, ?_, ?_⟩
  · intro h hc
    rw [pollLoop]
    simp [h, hc]
  · intro h hc
    rcases hc with hc | hc <;> (rw [pollLoop]; simp [h, hc])
  · intro h h1 h2 h3
    rw [pollLoop]
    simp [h, h1, h2, h3]
  · intro h
    rw [pollLoop]
    simp [Nat.not_lt.mpr h]
  · simp [awaitCompletion, max_wait_time, pollLoop, seq3]
  · simp [awaitCompletion, max_wait_time, pollLoop]

/-- C5 witness: the third poll of the [STARTING, STARTING, COMPLETE]
sequence sees COMPLETE under the timeout and succeeds, for a total of 3
polls. -/
theorem C5_witness :
    pollLoop seq3 300 2 20 = (.completed, 3) :=
  (C5_poller seq3 300 2 20).1 (by decide) (by decide)

end GuardrailSelector
